import Mathlib

set_option maxHeartbeats 1000000

/-!
Shallow embedding of the notification module (`app/notifications.py`) and the
webhook registration tool (`setup_webhook.py`) of the Seidhan mini-app backend,
together with theorems settling the frozen claims about the spec.

Network and database effects are modelled by oracle arguments: each outbound
HTTP call or database operation takes its outcome as an explicit input, and the
functions return the value the Python code would produce together with a trace
of the calls it would issue and the log events it would emit.
-/

/-- Python truthiness of an optional string: `None` and `""` are falsy. -/
def optStrTruthy : Option String → Bool
  | none => false
  | some s => !(s == "")

/-- Python truthiness of optional binary content: `None` and `b""` are falsy. -/
def optBytesTruthy : Option (List Nat) → Bool
  | none => false
  | some l => !l.isEmpty

/-- Python `s.lower()` (ASCII case mapping, which covers every phrase the code
compares against). -/
def lowerStr (s : String) : String := String.mk (s.toList.map Char.toLower)

/-- Python substring membership `pat in s`. -/
def strContains (s pat : String) : Bool :=
  s.toList.tails.any (fun t => pat.toList.isPrefixOf t)

/-- Python `s.startswith(pat)`. -/
def strStartsWith (s pat : String) : Bool := pat.toList.isPrefixOf s.toList

/-- Python slice `order_id[-6:]`: the last six characters, or the whole string
when it is shorter. -/
def pyLast6 (s : String) : String := String.mk (s.toList.drop (s.toList.length - 6))

/-- Floor of a rational: its numerator Euclidean-divided by its (positive)
denominator. -/
def ratFloor (q : ℚ) : ℤ := q.num.ediv q.den

/-- Python `int()` applied to a number: truncation toward zero. -/
def pyInt (q : ℚ) : ℤ := if 0 ≤ q then ratFloor q else -ratFloor (-q)

/-- Round to the nearest integer with ties to even, the rounding used by
`"%.2f"` formatting of an exactly representable value. -/
def roundHalfEven (q : ℚ) : ℤ :=
  let f := ratFloor q
  let r := q - (f : ℚ)
  if r < 1/2 then f
  else if (1 : ℚ)/2 < r then f + 1
  else if f % 2 = 0 then f else f + 1

/-- Python `s.rstrip(c)` for a single strip character. -/
def rstripChar (c : Char) (s : String) : String :=
  String.mk ((s.toList.reverse.dropWhile (· == c)).reverse)

/-- Two-digit zero-padded rendering of a number below 100. -/
def pad2 (n : Nat) : String := if n < 10 then "0" ++ toString n else toString n

/-- Python `f"{q:.2f}"`: the value rounded to two fractional digits and rendered
with exactly two fractional digits (with a leading minus sign if negative). -/
def twoDecString (q : ℚ) : String :=
  let n := roundHalfEven (q * 100)
  if n < 0 then "-" ++ toString ((-n).toNat / 100) ++ "." ++ pad2 ((-n).toNat % 100)
  else toString (n.toNat / 100) ++ "." ++ pad2 (n.toNat % 100)

/-- `app/notifications.py` lines 19-31: `format_amount`. Renders an amount,
dropping the fractional part when it is zero, and otherwise formatting with two
fractional digits and stripping trailing zeros and a trailing dot. -/
def format_amount (amount : ℚ) : String :=
  if amount = (pyInt amount : ℚ) then toString (pyInt amount)
  else rstripChar '.' (rstripChar '0' (twoDecString amount))

theorem pyInt_den_one (q : ℚ) (hq : q.den = 1) : pyInt q = q.num := by
  unfold pyInt ratFloor
  rw [Rat.neg_num, Rat.neg_den, hq]
  have h1 : ∀ a : ℤ, a.ediv 1 = a := fun a => Int.ediv_one a
  split
  · exact h1 q.num
  · rw [Nat.cast_one, h1, neg_neg]

theorem format_amount_den_one (q : ℚ) (hq : q.den = 1) :
    format_amount q = toString q.num := by
  have h1 : pyInt q = q.num := pyInt_den_one q hq
  have h2 : ((pyInt q : ℤ) : ℚ) = q := by
    rw [h1]; exact (Rat.den_eq_one_iff q).mp hq
  unfold format_amount
  rw [if_pos h2.symm, h1]

unseal Rat.sub Rat.add Rat.mul Rat.inv Rat.ofScientific in
/-- C7: `format_amount` is a pure (deterministic, effect-free) function; on an
amount whose fractional part is exactly zero it renders the integer with no
separator, and the worked examples render with two fractional digits with
trailing zeros and a trailing separator stripped: 10 ↦ "10", 10.5 ↦ "10.5",
10.50 ↦ "10.5", 0 ↦ "0", 3.14 ↦ "3.14". -/
theorem C7_format_amount :
    format_amount 10 = "10" ∧ format_amount (10.5 : ℚ) = "10.5" ∧
    format_amount (10.50 : ℚ) = "10.5" ∧ format_amount 0 = "0" ∧
    format_amount (3.14 : ℚ) = "3.14" ∧
    (∀ q : ℚ, q.den = 1 → format_amount q = toString q.num) :=
  ⟨by decide, by decide, by decide, by decide, by decide,
   fun q hq => format_amount_den_one q hq⟩

unseal Rat.sub Rat.add Rat.mul Rat.inv Rat.ofScientific in
/-- Witness for C7 at the concrete integral amount 7. -/
theorem C7_format_amount_witness :
    (7 : ℚ).den = 1 ∧ format_amount 7 = toString (7 : ℚ).num :=
  ⟨by decide, C7_format_amount.2.2.2.2.2 7 (by decide)⟩

/-- `setup_webhook.py` lines 28 and 96: `backend_url.rstrip('/')`, stripping
every trailing slash. -/
def pyRstripSlashes (s : String) : String :=
  String.mk ((s.toList.reverse.dropWhile (· == '/')).reverse)

/-- Python `str.replace(pat, repl)`: replace every non-overlapping occurrence
of `pat`, scanning left to right (fuel-driven; fuel = input length suffices). -/
def replaceChars : Nat → List Char → List Char → List Char → List Char
  | 0, s, _, _ => s
  | Nat.succ fuel, s, pat, repl =>
    match s with
    | [] => []
    | c :: rest =>
      if pat.isPrefixOf (c :: rest) && !pat.isEmpty then
        repl ++ replaceChars fuel ((c :: rest).drop pat.length) pat repl
      else c :: replaceChars fuel rest pat repl

/-- Python `s.replace(pat, repl)` on strings. -/
def pyReplaceStr (s pat repl : String) : String :=
  String.mk (replaceChars s.toList.length s.toList pat.toList repl.toList)

/-- `setup_webhook.py` lines 28 and 96: the backend URL normalization
`backend_url.rstrip('/').replace('/api', '')`. -/
def normalizeBackendUrl (backendUrl : String) : String :=
  pyReplaceStr (pyRstripSlashes backendUrl) "/api" ""

/-- `setup_webhook.py` line 32: the webhook endpoint registered with the
provider when a bot token is given. -/
def webhookUrl (backendUrl : String) : String :=
  normalizeBackendUrl backendUrl ++ "/api/bot/webhook"

/-- `setup_webhook.py` line 59: the backend-owned setup endpoint. -/
def setupUrl (backendUrl : String) : String :=
  normalizeBackendUrl backendUrl ++ "/api/bot/webhook/setup"

/-- `setup_webhook.py` line 97: the backend-owned status endpoint used by
`check_webhook_status`. -/
def statusUrl (backendUrl : String) : String :=
  normalizeBackendUrl backendUrl ++ "/api/bot/webhook/status"

theorem rstripSlashes_append_slash (s : String) :
    pyRstripSlashes (s ++ "/") = pyRstripSlashes s := by
  unfold pyRstripSlashes
  have h : (s ++ "/").toList = s.toList ++ ['/'] := by
    show (s ++ "/").data = s.data ++ ['/']
    rw [String.data_append]
  rw [h]
  simp [List.dropWhile]

/-- C10: the webhook tool strips all trailing slashes and removes every
occurrence of the substring "/api" anywhere in the backend URL, and both the
setup and the status paths build their endpoint URLs from the mutated string:
"https://x.example/apiary" becomes "https://x.exampleary", and all derived
endpoint URLs are built from that mutated base. -/
theorem C10_webhook_url_normalization :
    (∀ s : String, normalizeBackendUrl (s ++ "/") = normalizeBackendUrl s) ∧
    normalizeBackendUrl "https://x.example/apiary" = "https://x.exampleary" ∧
    webhookUrl "https://x.example/apiary" = "https://x.exampleary/api/bot/webhook" ∧
    setupUrl "https://x.example/apiary" = "https://x.exampleary/api/bot/webhook/setup" ∧
    statusUrl "https://x.example/apiary" = "https://x.exampleary/api/bot/webhook/status" ∧
    normalizeBackendUrl "https://host/api/v1" = "https://host/v1" ∧
    statusUrl "https://host.example/api" = "https://host.example/api/bot/webhook/status" := by
  refine ⟨?_, by decide, by decide, by decide, by decide, by decide, by decide⟩
  intro s
  unfold normalizeBackendUrl
  rw [rstripSlashes_append_slash]

/-- A line item of an order as consumed by the notification code: a Python dict
whose keys may be absent (absence modelled by `none`). -/
structure Item where
  product_id : Option String := none
  variant_id : Option String := none
  quantity : Option Int := none
  product_name : Option String := none
  variant_name : Option String := none
  price : Option ℚ := none
deriving DecidableEq

/-- The enriched per-item data the accepted-order message renders. -/
structure ItemDetail where
  product_name : String
  variant_name : String
  quantity : Int
deriving DecidableEq

/-- A product variant as stored in the catalog (`id` and `name` keys). -/
structure Variant where
  id : Option String := none
  name : Option String := none
deriving DecidableEq

/-- Outcome of the `db.products.find_one` lookup used for variant-name
backfill: an exception, no document, or a document with projected fields. -/
inductive LookupOutcome
  | exn
  | notFound
  | found (name : Option String) (variants : List Variant)
deriving DecidableEq

/-- Outcome of the GridFS receipt fetch: an exception anywhere in the fetch, or
content with the stored filename and content type. -/
inductive FetchOutcome
  | exn
  | content (data : List Nat) (filename : Option String) (contentType : Option String)
deriving DecidableEq

/-- Per-recipient result collected by `asyncio.gather(..., return_exceptions=True)`:
`True`, a non-`True` return, or a raised exception object. -/
inductive SendResult
  | ok
  | failed
  | exn
deriving DecidableEq, BEq

/-- Log events emitted by the notification module (the payload retains what the
claims are about: which order and how many failures, or which recipient). -/
inductive LogEvent
  | aggregateNewOrderFailure (orderId : String) (failedCount : Nat)
  | aggregateAcceptedFailure (orderId : String) (failedCount : Nat)
  | customerWarning (errorType : String) (errorCode : Option Int)
  | customerDeleted (userId : Int)
  | customerDeleteError (userId : Int)
  | customerSendError
deriving DecidableEq

/-- The configuration consumed by the admin notification paths. -/
structure Settings where
  telegram_bot_token : Option String
  admin_ids : List Int
deriving DecidableEq

/-- `app/notifications.py` line 203: `items_total`, the sum over line items of
`(item.get("price", 0) or 0) * (item.get("quantity", 0) or 0)`. -/
def itemsTotal : List Item → ℚ
  | [] => 0
  | it :: rest => (it.price.getD 0) * ((it.quantity.getD 0 : ℤ) : ℚ) + itemsTotal rest

/-- UTF-8 encoding of one character. -/
def utf8Bytes (c : Char) : List Nat :=
  let n := c.toNat
  if n < 128 then [n]
  else if n < 2048 then [192 + n / 64, 128 + n % 64]
  else if n < 65536 then [224 + n / 4096, 128 + (n / 64) % 64, 128 + n % 64]
  else [240 + n / 262144, 128 + (n / 4096) % 64, 128 + (n / 64) % 64, 128 + n % 64]

/-- Upper-case hexadecimal digit. -/
def hexDigit (n : Nat) : String := String.mk ["0123456789ABCDEF".toList.getD n '0']

/-- Percent-encoding of one byte as `urllib.parse.quote` with `safe=""` does:
ASCII alphanumerics and `-`, `.`, `_`, `~` are kept, everything else escaped. -/
def quoteByte (b : Nat) : String :=
  if (48 ≤ b ∧ b ≤ 57) ∨ (65 ≤ b ∧ b ≤ 90) ∨ (97 ≤ b ∧ b ≤ 122) ∨
      b = 45 ∨ b = 46 ∨ b = 95 ∨ b = 126 then String.mk [Char.ofNat b]
  else "%" ++ hexDigit (b / 16) ++ hexDigit (b % 16)

/-- `app/notifications.py` line 198: `quote(delivery_address, safe="")`. -/
def pyQuote (s : String) : String :=
  String.join (s.toList.map (fun c => String.join ((utf8Bytes c).map quoteByte)))

/-- `app/notifications.py` line 199: the 2GIS search URL for the address. -/
def address2gisUrl (addr : String) : String := "https://2gis.kz/search/" ++ pyQuote addr

/-- `app/notifications.py` line 200: the Markdown link wrapping the address. -/
def addressLink (addr : String) : String :=
  "[" ++ addr ++ "](" ++ address2gisUrl addr ++ ")"

/-- `app/notifications.py` lines 189-192: the numbered item lines (1-based
index, product name, optional variant name in parentheses, quantity). -/
def itemsLines : Nat → List ItemDetail → String
  | _, [] => ""
  | idx, d :: rest =>
    toString idx ++ ". " ++ d.product_name ++
      (if d.variant_name == "" then "" else " (" ++ d.variant_name ++ ")") ++
      " × " ++ toString d.quantity ++ "\n" ++ itemsLines (idx + 1) rest

/-- `app/notifications.py` line 189: `items_text`. -/
def itemsText (ds : List ItemDetail) : String := "📦 *Товары:*\n" ++ itemsLines 1 ds

/-- `app/notifications.py` lines 203-217: the accepted-order message body. The
delivery fee is computed as `total_amount - items_total`, not read from any
input field. -/
def acceptedOrderMessage (order_id customer_name customer_phone delivery_address : String)
    (total_amount : ℚ) (items : List Item) (delivery_time_slot : String)
    (items_details : List ItemDetail) : String :=
  let items_total := itemsTotal items
  let delivery_fee := total_amount - items_total
  "✅ *Заказ принят!*\n\n📋 Заказ: `" ++ pyLast6 order_id ++
    "`\n⏰ Время доставки: *" ++ delivery_time_slot ++ "*\n\n👤 Клиент: " ++
    customer_name ++ "\n📞 Телефон: " ++ customer_phone ++ "\n📍 Адрес: " ++
    addressLink delivery_address ++ "\n💰 Товары: " ++ format_amount items_total ++
    " ₸" ++ "\n🚚 Доставка: " ++ format_amount delivery_fee ++ " ₸\n" ++
    "💰 *Итого: " ++ format_amount total_amount ++ " ₸*\n\n" ++ itemsText items_details

/-- `app/notifications.py` line 69: the terse new-order message. -/
def newOrderMessage (order_id : String) : String :=
  "🆕 *Новый заказ!*\n\n📋 Заказ: `" ++ pyLast6 order_id ++ "`"

/-- Python `x or default` for an optional string. -/
def pyStrOrDefault (o : Option String) (d : String) : String :=
  if optStrTruthy o then o.getD "" else d

/-- `app/notifications.py` lines 219-234: fetch the receipt from GridFS.
Returns the `(receipt_data, receipt_filename, receipt_content_type)` triple;
any exception yields all-`None`, and empty content clears `receipt_data` while
keeping the already-assigned filename and content type. -/
def resolveReceiptData (receipt_file_id : Option String) (fetch : FetchOutcome) :
    Option (List Nat) × Option String × Option String :=
  if optStrTruthy receipt_file_id then
    match fetch with
    | .exn => (none, none, none)
    | .content data fn ct =>
      ((if data.isEmpty then none else some data),
       some (pyStrOrDefault fn "receipt"),
       some (pyStrOrDefault ct "application/octet-stream"))
  else (none, none, none)

/-- `app/notifications.py` line 172: whether the lazy variant-name lookup runs
for an item (`if not variant_name and variant_id and product_id`). -/
def variantLookupNeeded (it : Item) : Bool :=
  !(optStrTruthy it.variant_name) && optStrTruthy it.variant_id && optStrTruthy it.product_id

/-- `app/notifications.py` lines 163-186: build one entry of `items_details`,
lazily backfilling the variant name from the catalog; lookup failures are
swallowed and leave the name as it was (blank after the `or ""`). -/
def resolveItemDetail (it : Item) (lookup : LookupOutcome) : ItemDetail :=
  let quantity := it.quantity.getD 1
  let product_name := it.product_name.getD "Товар"
  if variantLookupNeeded it then
    match lookup with
    | .exn =>
      { product_name := product_name, variant_name := it.variant_name.getD "", quantity := quantity }
    | .notFound =>
      { product_name := product_name, variant_name := it.variant_name.getD "", quantity := quantity }
    | .found pname variants =>
      let product_name2 := if product_name == "" then pname.getD "Товар" else product_name
      match variants.find? (fun v => v.id == it.variant_id) with
      | some v =>
        { product_name := product_name2, variant_name := v.name.getD "", quantity := quantity }
      | none =>
        { product_name := product_name2, variant_name := it.variant_name.getD "", quantity := quantity }
  else
    { product_name := product_name, variant_name := it.variant_name.getD "", quantity := quantity }

/-- What an admin-notification entry point did: which recipients a delivery was
issued to, the composed message, the log events of the entry point itself, and
whether/what it touched in GridFS and the product catalog. -/
structure AdminNotifyResult where
  attempted : List Int
  message : Option String
  logs : List LogEvent
  fetchAttempted : Bool
  dbLookups : List String
  receipt : Option (List Nat) × Option String × Option String
deriving DecidableEq

/-- The silent no-op result: nothing composed, attempted, fetched or logged. -/
def emptyAdminNotifyResult : AdminNotifyResult :=
  { attempted := [], message := none, logs := [], fetchAttempted := false,
    dbLookups := [], receipt := (none, none, none) }

/-- `app/notifications.py` lines 34-92: `notify_admins_new_order`. Per-recipient
delivery outcomes are supplied by the `sendOutcome` oracle (the value collected
by `asyncio.gather` for that recipient). -/
def notify_admins_new_order (settings : Settings) (order_id : String)
    (sendOutcome : Int → SendResult) : AdminNotifyResult :=
  if !(optStrTruthy settings.telegram_bot_token) then emptyAdminNotifyResult
  else if settings.admin_ids.isEmpty then emptyAdminNotifyResult
  else
    let message := newOrderMessage order_id
    let results := settings.admin_ids.map sendOutcome
    let success_count := results.countP (fun r => r == SendResult.ok)
    let failed_count := results.length - success_count
    { attempted := settings.admin_ids, message := some message,
      logs := if 0 < failed_count then [LogEvent.aggregateNewOrderFailure order_id failed_count] else [],
      fetchAttempted := false, dbLookups := [], receipt := (none, none, none) }

/-- `app/notifications.py` lines 125-259: `notify_admin_order_accepted`.
Catalog lookups, the GridFS fetch and per-recipient deliveries are supplied by
oracles. -/
def notify_admin_order_accepted (settings : Settings)
    (order_id customer_name customer_phone delivery_address : String)
    (total_amount : ℚ) (items : List Item) (receipt_file_id : Option String)
    (delivery_time_slot : String) (catalog : String → LookupOutcome)
    (fetch : FetchOutcome) (sendOutcome : Int → SendResult) : AdminNotifyResult :=
  if !(optStrTruthy settings.telegram_bot_token) then emptyAdminNotifyResult
  else if settings.admin_ids.isEmpty then emptyAdminNotifyResult
  else
    let items_details := items.map (fun it => resolveItemDetail it (catalog (it.product_id.getD "")))
    let message := acceptedOrderMessage order_id customer_name customer_phone
      delivery_address total_amount items delivery_time_slot items_details
    let receipt := resolveReceiptData receipt_file_id fetch
    let results := settings.admin_ids.map sendOutcome
    let success_count := results.countP (fun r => r == SendResult.ok)
    let failed_count := results.length - success_count
    { attempted := settings.admin_ids, message := some message,
      logs := if 0 < failed_count then [LogEvent.aggregateAcceptedFailure order_id failed_count] else [],
      fetchAttempted := optStrTruthy receipt_file_id,
      dbLookups := items.filterMap (fun it => if variantLookupNeeded it then it.product_id else none),
      receipt := receipt }

theorem strAppend_assoc (a b c : String) : a ++ b ++ c = a ++ (b ++ c) := by
  apply String.ext
  show ((a ++ b) ++ c).data = (a ++ (b ++ c)).data
  rw [String.data_append, String.data_append, String.data_append, String.data_append,
    List.append_assoc]

unseal Rat.sub Rat.add Rat.mul Rat.inv Rat.ofScientific in
/-- C1: in the accepted-order message the "🚚 Доставка" line renders
`format_amount (total_amount - items_total)` where `items_total` is the sum of
`price × quantity` over all line items with missing prices treated as 0 — the
fee is derived, not read from input; and for total 1500 with one item of price
500 and quantity 2 the rendered fee is "500". -/
theorem C1_delivery_fee_derived :
    (∀ (order_id customer_name customer_phone delivery_address : String)
       (total_amount : ℚ) (items : List Item) (delivery_time_slot : String)
       (items_details : List ItemDetail),
       ∃ pre post : String,
         acceptedOrderMessage order_id customer_name customer_phone delivery_address
             total_amount items delivery_time_slot items_details =
           pre ++ ("\n🚚 Доставка: " ++ format_amount (total_amount - itemsTotal items) ++ " ₸\n") ++ post) ∧
    format_amount ((1500 : ℚ) - itemsTotal [{ quantity := some 2, price := some 500 }]) = "500" := by
  constructor
  · intro order_id customer_name customer_phone delivery_address total_amount items
      delivery_time_slot items_details
    refine ⟨"✅ *Заказ принят!*\n\n📋 Заказ: `" ++ pyLast6 order_id ++
      "`\n⏰ Время доставки: *" ++ delivery_time_slot ++ "*\n\n👤 Клиент: " ++
      customer_name ++ "\n📞 Телефон: " ++ customer_phone ++ "\n📍 Адрес: " ++
      addressLink delivery_address ++ "\n💰 Товары: " ++
      format_amount (itemsTotal items) ++ " ₸",
      "💰 *Итого: " ++ format_amount total_amount ++ " ₸*\n\n" ++ itemsText items_details, ?_⟩
    unfold acceptedOrderMessage
    simp only [strAppend_assoc]
  · decide

/-- C6: with a missing/empty bot credential or an empty configured admin list,
both admin notification entry points are silent no-ops: no message is composed,
no delivery is attempted, no fetch or catalog lookup happens, no log is
emitted. -/
theorem C6_config_absent_noop :
    ∀ (settings : Settings) (order_id customer_name customer_phone delivery_address : String)
      (total_amount : ℚ) (items : List Item) (receipt_file_id : Option String)
      (delivery_time_slot : String) (catalog : String → LookupOutcome)
      (fetch : FetchOutcome) (sendOutcome : Int → SendResult),
      optStrTruthy settings.telegram_bot_token = false ∨ settings.admin_ids = [] →
      notify_admins_new_order settings order_id sendOutcome = emptyAdminNotifyResult ∧
      notify_admin_order_accepted settings order_id customer_name customer_phone
        delivery_address total_amount items receipt_file_id delivery_time_slot
        catalog fetch sendOutcome = emptyAdminNotifyResult := by
  intro settings oid cn cp da ta items rf slot cat fetch out h
  unfold notify_admins_new_order notify_admin_order_accepted
  rcases h with h | h
  · simp [h]
  · by_cases ht : optStrTruthy settings.telegram_bot_token <;> simp [h, ht]

/-- Witness for C6: a missing bot token with a nonempty admin list is a silent
no-op for both entry points. -/
theorem C6_config_absent_noop_witness :
    notify_admins_new_order ⟨none, [5]⟩ "ORDER1" (fun _ => SendResult.ok) = emptyAdminNotifyResult ∧
    notify_admin_order_accepted ⟨none, [5]⟩ "ORDER1" "n" "p" "a" 0 [] none "13:00-14:00"
      (fun _ => LookupOutcome.exn) FetchOutcome.exn (fun _ => SendResult.ok) = emptyAdminNotifyResult :=
  C6_config_absent_noop ⟨none, [5]⟩ "ORDER1" "n" "p" "a" 0 [] none "13:00-14:00"
    (fun _ => LookupOutcome.exn) FetchOutcome.exn (fun _ => SendResult.ok) (Or.inl (by decide))

theorem countP_not_ok (l : List SendResult) :
    l.countP (fun r => !(r == SendResult.ok)) =
      l.length - l.countP (fun r => r == SendResult.ok) := by
  induction l with
  | nil => rfl
  | cons a t ih =>
    have hle : t.countP (fun r => r == SendResult.ok) ≤ t.length := List.countP_le_length _
    have h1 : (SendResult.ok == SendResult.ok) = true := rfl
    have h2 : (SendResult.failed == SendResult.ok) = false := rfl
    have h3 : (SendResult.exn == SendResult.ok) = false := rfl
    cases a <;> simp [List.countP_cons, ih, h1, h2, h3] <;> omega

/-- C3: for both admin fan-outs, when the bot credential is configured, a send
is issued to every configured admin regardless of individual outcomes (no
abort/skip), and the entry point emits exactly one aggregate diagnostic naming
the order and the number M of non-`True` results when M > 0, and none when
M = 0. -/
theorem C3_fanout_aggregate :
    ∀ (settings : Settings) (order_id customer_name customer_phone delivery_address : String)
      (total_amount : ℚ) (items : List Item) (receipt_file_id : Option String)
      (delivery_time_slot : String) (catalog : String → LookupOutcome)
      (fetch : FetchOutcome) (sendOutcome : Int → SendResult),
      optStrTruthy settings.telegram_bot_token = true →
      (notify_admins_new_order settings order_id sendOutcome).attempted = settings.admin_ids ∧
      (notify_admins_new_order settings order_id sendOutcome).logs =
        (if 0 < (settings.admin_ids.map sendOutcome).countP (fun r => !(r == SendResult.ok))
         then [LogEvent.aggregateNewOrderFailure order_id
                ((settings.admin_ids.map sendOutcome).countP (fun r => !(r == SendResult.ok)))]
         else []) ∧
      (notify_admin_order_accepted settings order_id customer_name customer_phone
          delivery_address total_amount items receipt_file_id delivery_time_slot
          catalog fetch sendOutcome).attempted = settings.admin_ids ∧
      (notify_admin_order_accepted settings order_id customer_name customer_phone
          delivery_address total_amount items receipt_file_id delivery_time_slot
          catalog fetch sendOutcome).logs =
        (if 0 < (settings.admin_ids.map sendOutcome).countP (fun r => !(r == SendResult.ok))
         then [LogEvent.aggregateAcceptedFailure order_id
                ((settings.admin_ids.map sendOutcome).countP (fun r => !(r == SendResult.ok)))]
         else []) := by
  intro settings oid cn cp da ta items rf slot cat fetch out ht
  unfold notify_admins_new_order notify_admin_order_accepted
  rw [countP_not_ok]
  by_cases he : settings.admin_ids.isEmpty
  · have he2 : settings.admin_ids = [] := by
      cases hl : settings.admin_ids with
      | nil => rfl
      | cons a t => rw [hl] at he; simp at he
    simp [he2, ht, emptyAdminNotifyResult]
  · simp [he, ht]

/-- Witness for C3: three admins of which exactly one delivery fails produce
one aggregate diagnostic with count 1, and all three are attempted. -/
theorem C3_fanout_aggregate_witness :
    (notify_admins_new_order ⟨some "t", [1, 2, 3]⟩ "ORDER77"
        (fun i => if i == 1 then SendResult.failed else SendResult.ok)).attempted = [1, 2, 3] ∧
    (notify_admins_new_order ⟨some "t", [1, 2, 3]⟩ "ORDER77"
        (fun i => if i == 1 then SendResult.failed else SendResult.ok)).logs =
      [LogEvent.aggregateNewOrderFailure "ORDER77" 1] := by
  have h := C3_fanout_aggregate ⟨some "t", [1, 2, 3]⟩ "ORDER77" "" "" "" 0 [] none ""
    (fun _ => LookupOutcome.exn) FetchOutcome.exn
    (fun i => if i == 1 then SendResult.failed else SendResult.ok) (by decide)
  refine ⟨h.1, ?_⟩
  rw [h.2.1]
  decide

/-- C5: enrichment failures degrade gracefully: the accepted-order message body
and the attempted recipients do not depend on the receipt fetch outcome; a
fetch exception, empty content, or an absent reference all yield the
no-attachment sentinel `receipt_data = None`; and a variant-name lookup failure
(exception or missing document) leaves the variant name equal to
`variant_name or ""` — blank when it was absent — with the item detail still
produced. -/
theorem C5_enrichment_degrades :
    (∀ (settings : Settings) (order_id customer_name customer_phone delivery_address : String)
       (total_amount : ℚ) (items : List Item) (receipt_file_id : Option String)
       (delivery_time_slot : String) (catalog : String → LookupOutcome)
       (fetch1 fetch2 : FetchOutcome) (sendOutcome : Int → SendResult),
       (notify_admin_order_accepted settings order_id customer_name customer_phone
          delivery_address total_amount items receipt_file_id delivery_time_slot
          catalog fetch1 sendOutcome).message =
         (notify_admin_order_accepted settings order_id customer_name customer_phone
          delivery_address total_amount items receipt_file_id delivery_time_slot
          catalog fetch2 sendOutcome).message ∧
       (notify_admin_order_accepted settings order_id customer_name customer_phone
          delivery_address total_amount items receipt_file_id delivery_time_slot
          catalog fetch1 sendOutcome).attempted =
         (notify_admin_order_accepted settings order_id customer_name customer_phone
          delivery_address total_amount items receipt_file_id delivery_time_slot
          catalog fetch2 sendOutcome).attempted) ∧
    (∀ fid : Option String, (resolveReceiptData fid FetchOutcome.exn).1 = none) ∧
    (∀ (fid fn ct : Option String),
       (resolveReceiptData fid (FetchOutcome.content [] fn ct)).1 = none) ∧
    (∀ fetch : FetchOutcome, (resolveReceiptData none fetch).1 = none) ∧
    (∀ it : Item,
       (resolveItemDetail it LookupOutcome.exn).variant_name = it.variant_name.getD "" ∧
       (resolveItemDetail it LookupOutcome.notFound).variant_name = it.variant_name.getD "") := by
  refine ⟨?_, ?_, ?_, ?_, ?_⟩
  · intro settings oid cn cp da ta items rf slot cat fetch1 fetch2 out
    unfold notify_admin_order_accepted
    by_cases ht : optStrTruthy settings.telegram_bot_token
    · by_cases he : settings.admin_ids.isEmpty <;> simp [ht, he]
    · simp [ht]
  · intro fid
    unfold resolveReceiptData
    by_cases h : optStrTruthy fid <;> simp [h]
  · intro fid fn ct
    unfold resolveReceiptData
    by_cases h : optStrTruthy fid <;> simp [h]
  · intro fetch
    unfold resolveReceiptData
    simp [optStrTruthy]
  · intro it
    unfold resolveItemDetail
    by_cases h : variantLookupNeeded it <;> simp [h]

/-- The final path component of a filename (the part after the last '/'). -/
def lastComponent (l : List Char) : List Char := (l.reverse.takeWhile (· != '/')).reverse

/-- Python `Path(filename).suffix`: the extension of the final component
including the dot; empty when the last dot is leading, trailing or absent. -/
def pathSuffix (filename : String) : String :=
  let name := lastComponent filename.toList
  match name.reverse.findIdx? (· == '.') with
  | none => ""
  | some j =>
    let i := name.length - 1 - j
    if 0 < i ∧ i < name.length - 1 then String.mk (name.drop i) else ""

/-- `app/notifications.py` line 284: the image extension set. -/
def imageExtensions : List String := [".jpg", ".jpeg", ".png", ".webp", ".heic", ".heif"]

/-- `app/notifications.py` lines 284-286: `is_image` — extension in the image
set, or a declared content type starting with "image/". -/
def receiptIsImage (fn : String) (ct : Option String) : Bool :=
  imageExtensions.contains (lowerStr (pathSuffix fn)) ||
    (optStrTruthy ct && strStartsWith (ct.getD "") "image/")

/-- `app/notifications.py` line 287: `is_pdf` — extension ".pdf" or declared
content type exactly "application/pdf". -/
def receiptIsPdf (fn : String) (ct : Option String) : Bool :=
  (lowerStr (pathSuffix fn) == ".pdf") || (ct == some "application/pdf")

/-- Classification outcome of a receipt attachment. -/
inductive FileClass
  | image
  | pdf
  | doc
deriving DecidableEq

/-- `app/notifications.py` lines 289-297: the classification, `is_image`
checked first. -/
def classifyReceipt (fn : String) (ct : Option String) : FileClass :=
  if receiptIsImage fn ct then FileClass.image
  else if receiptIsPdf fn ct then FileClass.pdf
  else FileClass.doc

/-- Classification following the words of the spec/claim (C8): the filename
extension decides first, and the declared content type is only consulted as a
fallback when the extension is inconclusive. -/
def classifyReceiptSpec (fn : String) (ct : Option String) : FileClass :=
  let ext := lowerStr (pathSuffix fn)
  if imageExtensions.contains ext then FileClass.image
  else if ext == ".pdf" then FileClass.pdf
  else if optStrTruthy ct && strStartsWith (ct.getD "") "image/" then FileClass.image
  else if ct == some "application/pdf" then FileClass.pdf
  else FileClass.doc

/-- The provider endpoint chosen for each classification. -/
def apiMethodOf : FileClass → String
  | FileClass.image => "sendPhoto"
  | FileClass.pdf => "sendDocument"
  | FileClass.doc => "sendDocument"

/-- The multipart field name chosen for each classification. -/
def fileFieldOf : FileClass → String
  | FileClass.image => "photo"
  | FileClass.pdf => "document"
  | FileClass.doc => "document"

/-- Outcome of one HTTP call to the provider, as seen by the calling code:
either an exception (transport error, HTTP error status raised by
`raise_for_status`, or a parse failure) or a parsed JSON body whose `ok` field
is the given boolean. -/
inductive CallOutcome
  | exn
  | resp (ok : Bool)
deriving DecidableEq, BEq

/-- A record of one provider call issued for a recipient. -/
inductive CallRec
  | file (method : String) (fileField : String) (payload : List Nat) (caption : String)
  | text (body : String)
deriving DecidableEq

/-- `app/notifications.py` lines 262-349: `_send_notification_with_receipt`.
Returns the boolean outcome and the ordered trace of provider calls issued. -/
def send_notification_with_receipt (message : String) (receipt_data : Option (List Nat))
    (receipt_filename receipt_content_type : Option String)
    (fileCallOutcome textCallOutcome : CallOutcome) : Bool × List CallRec :=
  if optBytesTruthy receipt_data && optStrTruthy receipt_filename then
    let data := receipt_data.getD []
    let fn := receipt_filename.getD ""
    let cls := classifyReceipt fn receipt_content_type
    let fileCall := CallRec.file (apiMethodOf cls) (fileFieldOf cls) data message
    match fileCallOutcome with
    | CallOutcome.resp true => (true, [fileCall])
    | _ =>
      match textCallOutcome with
      | CallOutcome.resp true => (true, [fileCall, CallRec.text message])
      | _ => (false, [fileCall, CallRec.text message])
  else
    match textCallOutcome with
    | CallOutcome.resp true => (true, [CallRec.text message])
    | _ => (false, [CallRec.text message])

/-- Counterexample to C8 as stated: for filename "x.pdf" with declared content
type "image/png" the code classifies the file as an image (photo endpoint),
while the claimed extension-first rule classifies it as PDF — the content type
is not merely a fallback for inconclusive extensions. -/
theorem C8_attachment_classification_counterexample :
    classifyReceipt "x.pdf" (some "image/png") = FileClass.image ∧
    classifyReceiptSpec "x.pdf" (some "image/png") = FileClass.pdf ∧
    classifyReceipt "x.pdf" (some "image/png") ≠ classifyReceiptSpec "x.pdf" (some "image/png") := by
  decide

/-- C8 (amended): a file is classified as image iff its lower-cased extension
is in {jpg, jpeg, png, webp, heic, heif} OR its declared content type starts
with "image/" (the content type is a parallel disjunct, not only a fallback);
otherwise as PDF iff the extension is ".pdf" or the content type is
"application/pdf"; otherwise as generic document. The claim's three examples
hold: "receipt.PNG" with no content type is image, "scan" with
"application/pdf" is PDF, "data.bin" with "text/plain" is generic document. -/
theorem C8_attachment_classification :
    (∀ (fn : String) (ct : Option String),
      (classifyReceipt fn ct = FileClass.image ↔ receiptIsImage fn ct = true) ∧
      (classifyReceipt fn ct = FileClass.pdf ↔
        (receiptIsImage fn ct = false ∧ receiptIsPdf fn ct = true)) ∧
      (classifyReceipt fn ct = FileClass.doc ↔
        (receiptIsImage fn ct = false ∧ receiptIsPdf fn ct = false)) ∧
      receiptIsImage fn ct =
        (imageExtensions.contains (lowerStr (pathSuffix fn)) ||
          (optStrTruthy ct && strStartsWith (ct.getD "") "image/")) ∧
      receiptIsPdf fn ct =
        ((lowerStr (pathSuffix fn) == ".pdf") || (ct == some "application/pdf"))) ∧
    classifyReceipt "receipt.PNG" none = FileClass.image ∧
    classifyReceipt "scan" (some "application/pdf") = FileClass.pdf ∧
    classifyReceipt "data.bin" (some "text/plain") = FileClass.doc := by
  refine ⟨?_, by decide, by decide, by decide⟩
  intro fn ct
  refine ⟨?_, ?_, ?_, rfl, rfl⟩ <;>
    unfold classifyReceipt <;>
    cases h1 : receiptIsImage fn ct <;> cases h2 : receiptIsPdf fn ct <;> simp [h1, h2]

/-- C4: per recipient of the accepted-order notification, with receipt data
present a single attachment call carrying the payload and the message as
caption is attempted first on the endpoint selected by classification; any
non-success (ok=false or exception) falls through, without retrying, to one
plain-text call, which is also the only call when no attachment exists; the
outcome is True iff at least one of the two calls reported ok. -/
theorem C4_receipt_send_fallback :
    (∀ (fc tc : CallOutcome) (rd : List Nat) (fn : String) (ct : Option String) (msg : String),
      rd ≠ [] → fn ≠ "" →
      send_notification_with_receipt msg (some rd) (some fn) ct fc tc =
        (((fc == CallOutcome.resp true) || (tc == CallOutcome.resp true)),
         (if fc == CallOutcome.resp true
          then [CallRec.file (apiMethodOf (classifyReceipt fn ct))
                  (fileFieldOf (classifyReceipt fn ct)) rd msg]
          else [CallRec.file (apiMethodOf (classifyReceipt fn ct))
                  (fileFieldOf (classifyReceipt fn ct)) rd msg,
                CallRec.text msg]))) ∧
    (∀ (fc tc : CallOutcome) (fnO ctO : Option String) (msg : String),
      send_notification_with_receipt msg none fnO ctO fc tc =
        ((tc == CallOutcome.resp true), [CallRec.text msg])) ∧
    apiMethodOf FileClass.image = "sendPhoto" ∧ fileFieldOf FileClass.image = "photo" ∧
    apiMethodOf FileClass.pdf = "sendDocument" ∧ apiMethodOf FileClass.doc = "sendDocument" := by
  refine ⟨?_, ?_, rfl, rfl, rfl, rfl⟩
  · intro fc tc rd fn ct msg hrd hfn
    have h1 : optBytesTruthy (some rd) = true := by
      cases rd with
      | nil => exact absurd rfl hrd
      | cons a t => rfl
    have h2 : optStrTruthy (some fn) = true := by
      unfold optStrTruthy
      simp [hfn]
    unfold send_notification_with_receipt
    rw [h1, h2]
    rcases fc with _ | (_ | _) <;> rcases tc with _ | (_ | _) <;> rfl
  · intro fc tc fnO ctO msg
    unfold send_notification_with_receipt
    rcases tc with _ | (_ | _) <;> rfl

/-- Witness for C4: a present PNG receipt whose attachment call raises falls
through to a successful text call; the recipient outcome is True and the trace
is the photo call followed by the text call. -/
theorem C4_receipt_send_fallback_witness :
    send_notification_with_receipt "m" (some [7]) (some "r.png") none
        CallOutcome.exn (CallOutcome.resp true) =
      (true, [CallRec.file "sendPhoto" "photo" [7] "m", CallRec.text "m"]) := by
  have h := C4_receipt_send_fallback.1 CallOutcome.exn (CallOutcome.resp true) [7] "r.png" none "m"
    (by decide) (by decide)
  rw [h]
  decide

/-- `app/notifications.py` lines 378-389: `status_message`, selected by status
value from four templates. -/
def customerStatusBody (order_status : String)
    (rejection_reason delivery_time_slot : Option String) : String :=
  if order_status == "новый" then
    "✅ Ваш заказ получен. Вы получите уведомление о времени доставки."
  else if order_status == "принят" then
    (if optStrTruthy delivery_time_slot then
      "✅ Ваш заказ принят! Доставка будет осуществлена в период *" ++
        delivery_time_slot.getD "" ++ "*."
    else "✅ Ваш заказ принят!")
  else if order_status == "отказано" then
    "❌ Ваш заказ отклонен по какой-то причине." ++
      (if optStrTruthy rejection_reason then "\n\nПричина: " ++ rejection_reason.getD "" else "")
  else "Статус вашего заказа изменён: " ++ order_status

/-- `app/notifications.py` line 392: the customer message — the selected body
followed by the common footer with the truncated order id and raw status. -/
def customerStatusMessage (order_status : String)
    (rejection_reason delivery_time_slot : Option String) (order_id : String) : String :=
  customerStatusBody order_status rejection_reason delivery_time_slot ++
    "\n\n📋 Заказ: `" ++ pyLast6 order_id ++ "`\n📊 Статус: *" ++ order_status ++ "*"

/-- `app/notifications.py` lines 413-416: the invalid-recipient phrase set. -/
def invalidUserPhrases : List String :=
  ["chat not found", "user not found", "receiver not found", "chat_id is empty", "peer_id_invalid"]

/-- `app/notifications.py` lines 417-419: the blocked/deactivated phrase set. -/
def blockedPhrases : List String :=
  ["blocked", "bot blocked", "bot was blocked", "user is deactivated"]

/-- `app/notifications.py` lines 412-416: `is_invalid_user`, a case-insensitive
substring match of the fixed phrases against the provider description
(defaulted to "Unknown error" when absent). -/
def isInvalidUserDesc (description : Option String) : Bool :=
  invalidUserPhrases.any (fun p => strContains (lowerStr (description.getD "Unknown error")) p)

/-- `app/notifications.py` lines 417-419: `is_blocked`. -/
def isBlockedDesc (description : Option String) : Bool :=
  blockedPhrases.any (fun p => strContains (lowerStr (description.getD "Unknown error")) p)

/-- `app/notifications.py` lines 421-432: `error_type`, the diagnostic label;
numeric provider codes are consulted only here, after the phrase checks. -/
def errorTypeOf (description : Option String) (error_code : Option Int) : String :=
  if isInvalidUserDesc description then "невалидный пользователь"
  else if isBlockedDesc description then "пользователь заблокировал бота"
  else if error_code == some 429 then "rate limit (слишком много запросов)"
  else if error_code == some 400 then "неверный запрос"
  else if error_code == some 403 then "доступ запрещен"
  else "неизвестная ошибка"

/-- Outcome of the single customer send: a parsed provider response, or one of
the exception classes the code catches separately. -/
inductive SendOutcome
  | resp (ok : Bool) (error_code : Option Int) (description : Option String)
  | timeoutExn
  | httpStatusExn
  | otherExn
deriving DecidableEq

/-- Outcome of `db.customers.delete_one`: a deleted count, or an exception. -/
inductive DeleteOutcome
  | done (deleted_count : Nat)
  | exn
deriving DecidableEq

/-- What the customer notification did: the message it posted (none when the
credential is absent), whether a registry delete was attempted, whether an
entry was actually removed, and the log events. -/
structure CustomerNotifyResult where
  message : Option String
  deleteAttempted : Bool
  deleted : Bool
  logs : List LogEvent
deriving DecidableEq

/-- `app/notifications.py` lines 352-473: `notify_customer_order_status`. The
provider call and the registry delete take their outcomes as oracles; every
exception path of the source is a catch-and-log, so the function is total. -/
def notify_customer_order_status (bot_token : Option String) (user_id : Int)
    (order_id order_status : String) (rejection_reason delivery_time_slot : Option String)
    (dbPresent : Bool) (send : SendOutcome) (del : DeleteOutcome) : CustomerNotifyResult :=
  if !(optStrTruthy bot_token) then
    { message := none, deleteAttempted := false, deleted := false, logs := [] }
  else
    let message := customerStatusMessage order_status rejection_reason delivery_time_slot order_id
    match send with
    | SendOutcome.resp ok error_code description =>
      if !ok then
        let warnLog := LogEvent.customerWarning (errorTypeOf description error_code) error_code
        if dbPresent && (isInvalidUserDesc description || isBlockedDesc description) then
          match del with
          | DeleteOutcome.done n =>
            if 0 < n then
              { message := some message, deleteAttempted := true, deleted := true,
                logs := [warnLog, LogEvent.customerDeleted user_id] }
            else
              { message := some message, deleteAttempted := true, deleted := false,
                logs := [warnLog] }
          | DeleteOutcome.exn =>
            { message := some message, deleteAttempted := true, deleted := false,
              logs := [warnLog, LogEvent.customerDeleteError user_id] }
        else
          { message := some message, deleteAttempted := false, deleted := false,
            logs := [warnLog] }
      else
        { message := some message, deleteAttempted := false, deleted := false, logs := [] }
    | _ =>
      { message := some message, deleteAttempted := false, deleted := false,
        logs := [LogEvent.customerSendError] }

/-- C9: the customer status message is selected from exactly four templates —
"новый" a generic received acknowledgment, "принят" including the time slot
when a (nonempty) one is present and a shorter acknowledgment otherwise,
"отказано" a rejection message including the free-text reason when present,
anything else the generic "status changed to X" fallback — and in every case
the common footer with the truncated order id and the raw status is appended. -/
theorem C9_customer_status_templates :
    ∀ (order_id order_status : String) (rejection_reason delivery_time_slot : Option String),
      ∃ body : String,
        customerStatusMessage order_status rejection_reason delivery_time_slot order_id =
          body ++ ("\n\n📋 Заказ: `" ++ pyLast6 order_id ++ "`\n📊 Статус: *" ++
            order_status ++ "*") ∧
        (order_status = "новый" →
          body = "✅ Ваш заказ получен. Вы получите уведомление о времени доставки.") ∧
        (order_status = "принят" →
          body = (if optStrTruthy delivery_time_slot then
              "✅ Ваш заказ принят! Доставка будет осуществлена в период *" ++
                delivery_time_slot.getD "" ++ "*."
            else "✅ Ваш заказ принят!")) ∧
        (order_status = "отказано" →
          body = "❌ Ваш заказ отклонен по какой-то причине." ++
            (if optStrTruthy rejection_reason then
              "\n\nПричина: " ++ rejection_reason.getD "" else "")) ∧
        (order_status ≠ "новый" → order_status ≠ "принят" → order_status ≠ "отказано" →
          body = "Статус вашего заказа изменён: " ++ order_status) := by
  intro oid st rr slot
  refine ⟨customerStatusBody st rr slot, ?_, ?_, ?_, ?_, ?_⟩
  · unfold customerStatusMessage
    simp only [strAppend_assoc]
  · intro h; subst h; rfl
  · intro h; subst h; rfl
  · intro h; subst h; rfl
  · intro h1 h2 h3
    unfold customerStatusBody
    simp [h1, h2, h3]

/-- Witness for C9: an unrecognized status renders via the generic fallback
template with the footer appended. -/
theorem C9_customer_status_templates_witness :
    customerStatusMessage "в пути" none none "ABCDEFG" =
      "Статус вашего заказа изменён: в пути" ++
        ("\n\n📋 Заказ: `" ++ pyLast6 "ABCDEFG" ++ "`\n📊 Статус: *" ++ "в пути" ++ "*") := by
  obtain ⟨body, he, _, _, _, hf⟩ :=
    C9_customer_status_templates "ABCDEFG" "в пути" none none
  rw [hf (by decide) (by decide) (by decide)] at he
  exact he

theorem customer_deleteAttempted_formula (bot_token : Option String) (user_id : Int)
    (order_id order_status : String) (rejection_reason delivery_time_slot : Option String)
    (dbPresent : Bool) (send : SendOutcome) (del : DeleteOutcome) :
    (notify_customer_order_status bot_token user_id order_id order_status
        rejection_reason delivery_time_slot dbPresent send del).deleteAttempted =
      (optStrTruthy bot_token && dbPresent &&
        (match send with
         | SendOutcome.resp ok _ d => !ok && (isInvalidUserDesc d || isBlockedDesc d)
         | _ => false)) := by
  unfold notify_customer_order_status
  cases hb : optStrTruthy bot_token
  · simp
  · cases send with
    | timeoutExn => simp
    | httpStatusExn => simp
    | otherExn => simp
    | resp ok c d =>
      cases ok
      · cases hd : dbPresent && (isInvalidUserDesc d || isBlockedDesc d)
        · simp [hd, Bool.and_assoc]
        · cases del with
          | done n => by_cases hn : 0 < n <;> simp [hd, hn, Bool.and_assoc]
          | exn => simp [hd, Bool.and_assoc]
      · simp

theorem customer_deleted_formula (bot_token : Option String) (user_id : Int)
    (order_id order_status : String) (rejection_reason delivery_time_slot : Option String)
    (dbPresent : Bool) (send : SendOutcome) (del : DeleteOutcome) :
    (notify_customer_order_status bot_token user_id order_id order_status
        rejection_reason delivery_time_slot dbPresent send del).deleted =
      ((notify_customer_order_status bot_token user_id order_id order_status
          rejection_reason delivery_time_slot dbPresent send del).deleteAttempted &&
        (match del with
         | DeleteOutcome.done n => decide (0 < n)
         | DeleteOutcome.exn => false)) := by
  unfold notify_customer_order_status
  cases hb : optStrTruthy bot_token
  · simp
  · cases send with
    | timeoutExn => simp
    | httpStatusExn => simp
    | otherExn => simp
    | resp ok c d =>
      cases ok
      · cases hd : dbPresent && (isInvalidUserDesc d || isBlockedDesc d)
        · simp [hd]
        · cases del with
          | done n => by_cases hn : 0 < n <;> simp [hd, hn]
          | exn => simp [hd]
      · simp

/-- C2: the registry delete of the customer record is attempted iff the
provider response was parsed with ok=false, its description (case-insensitively)
contains one of the fixed invalid-recipient or blocked phrases, and a database
handle was supplied; numeric error codes never alter whether the delete or the
removal happens (they only enrich the log); exceptions (timeout and friends)
never trigger it; concretely a 403 "Forbidden: bot was blocked by the user"
response triggers the delete while 429 "Too Many Requests", 400, and a timeout
do not; and a failing delete is swallowed — the call still returns normally
with the failure logged. -/
theorem C2_recipient_pruning :
    (∀ (bot_token : Option String) (user_id : Int) (order_id order_status : String)
       (rejection_reason delivery_time_slot : Option String) (dbPresent : Bool)
       (send : SendOutcome) (del : DeleteOutcome),
       (notify_customer_order_status bot_token user_id order_id order_status
           rejection_reason delivery_time_slot dbPresent send del).deleteAttempted =
         (optStrTruthy bot_token && dbPresent &&
           (match send with
            | SendOutcome.resp ok _ d => !ok && (isInvalidUserDesc d || isBlockedDesc d)
            | _ => false))) ∧
    (∀ (bot_token : Option String) (user_id : Int) (order_id order_status : String)
       (rejection_reason delivery_time_slot : Option String) (dbPresent : Bool)
       (ok : Bool) (c1 c2 : Option Int) (d : Option String) (del : DeleteOutcome),
       (notify_customer_order_status bot_token user_id order_id order_status
           rejection_reason delivery_time_slot dbPresent (SendOutcome.resp ok c1 d) del).deleteAttempted =
         (notify_customer_order_status bot_token user_id order_id order_status
           rejection_reason delivery_time_slot dbPresent (SendOutcome.resp ok c2 d) del).deleteAttempted ∧
       (notify_customer_order_status bot_token user_id order_id order_status
           rejection_reason delivery_time_slot dbPresent (SendOutcome.resp ok c1 d) del).deleted =
         (notify_customer_order_status bot_token user_id order_id order_status
           rejection_reason delivery_time_slot dbPresent (SendOutcome.resp ok c2 d) del).deleted) ∧
    (notify_customer_order_status (some "t") 7 "ORDER123" "принят" none none true
        (SendOutcome.resp false (some 403) (some "Forbidden: bot was blocked by the user"))
        (DeleteOutcome.done 1)).deleteAttempted = true ∧
    (notify_customer_order_status (some "t") 7 "ORDER123" "принят" none none true
        (SendOutcome.resp false (some 403) (some "Forbidden: bot was blocked by the user"))
        (DeleteOutcome.done 1)).deleted = true ∧
    (notify_customer_order_status (some "t") 7 "ORDER123" "принят" none none true
        (SendOutcome.resp false (some 429) (some "Too Many Requests"))
        (DeleteOutcome.done 1)).deleteAttempted = false ∧
    (notify_customer_order_status (some "t") 7 "ORDER123" "принят" none none true
        (SendOutcome.resp false (some 400) (some "Bad Request: message text is empty"))
        (DeleteOutcome.done 1)).deleteAttempted = false ∧
    (notify_customer_order_status (some "t") 7 "ORDER123" "принят" none none true
        SendOutcome.timeoutExn (DeleteOutcome.done 1)).deleteAttempted = false ∧
    ((notify_customer_order_status (some "t") 7 "ORDER123" "принят" none none true
        (SendOutcome.resp false (some 403) (some "Forbidden: bot was blocked by the user"))
        DeleteOutcome.exn).deleteAttempted = true ∧
     (notify_customer_order_status (some "t") 7 "ORDER123" "принят" none none true
        (SendOutcome.resp false (some 403) (some "Forbidden: bot was blocked by the user"))
        DeleteOutcome.exn).deleted = false ∧
     (notify_customer_order_status (some "t") 7 "ORDER123" "принят" none none true
        (SendOutcome.resp false (some 403) (some "Forbidden: bot was blocked by the user"))
        DeleteOutcome.exn).logs =
       [LogEvent.customerWarning "пользователь заблокировал бота" (some 403),
        LogEvent.customerDeleteError 7]) := by
  refine ⟨?_, ?_, by decide, by decide, by decide, by decide, by decide, by decide, by decide,
    by decide⟩
  · intro bot uid oid st rr slot dbp send del
    exact customer_deleteAttempted_formula bot uid oid st rr slot dbp send del
  · intro bot uid oid st rr slot dbp ok c1 c2 d del
    constructor
    · rw [customer_deleteAttempted_formula, customer_deleteAttempted_formula]
    · rw [customer_deleted_formula, customer_deleted_formula,
        customer_deleteAttempted_formula, customer_deleteAttempted_formula]
